import Mathlib

/-
Verification development for the DCGAN graph-building example
(`tensorflow/examples/cc/gan/dcgan/nn_ops_rkz.cc`).

The C++ file builds a symbolic computation graph by calling graph-op
constructors.  We embed it at two levels:

* a syntactic level: `Expr` is the graph-node language; each helper class
  and each network constructor is transcribed into a Lean definition that
  builds the same expression tree (graph nodes) the C++ code builds;
* a semantic level: for the small element-wise helpers we also give the
  scalar function each built subgraph computes on one tensor element,
  with the transcendental primitives (rsqrt, exp, log1p, sqrt) abstracted
  as a structure of functions over `ℚ` (floats modelled as exact rationals).
-/

namespace DCGAN

/-- Host-side float values computed by the C++ code before being embedded
as graph constants.  Rational literals cover everything except the Glorot
limit, which involves `std::sqrt`; we keep those values symbolic. -/
inductive HF where
  | ofRat (q : ℚ)
  | sqrt (x : HF)
  | neg (x : HF)
  | sub (x y : HF)
  | mul (x y : HF)
  deriving DecidableEq, Repr

/-- C++ conversion from a floating-point value (modelled as `ℚ`) to `int`:
truncation toward zero. -/
def cppTruncToInt (q : ℚ) : ℤ := if 0 ≤ q then ⌊q⌋ else -⌊-q⌋

/-- Graph nodes, one constructor per framework op used in the file.
`varNode` is `Variable(scope, shape, DT_FLOAT)`, identified by the field
name the C++ code stores it in (each `Variable` call in the file is stored
in a distinct field). -/
inductive Expr where
  | varNode (name : String) (shape : List ℤ)
  | constF (v : HF)
  | constFList (l : List HF)
  | constFShaped (v : HF) (shape : List ℤ)
  | constIntList (l : List ℤ)
  | hostZeros (shape : List ℤ)
  | randomNormal (shape : List ℤ)
  | randomUniform (shapeE : Expr)
  | shapeOf (x : Expr)
  | rsqrt (x : Expr)
  | castF (x : Expr)
  | negE (x : Expr)
  | floorE (x : Expr)
  | zerosLike (x : Expr)
  | expE (x : Expr)
  | log1pE (x : Expr)
  | add (x y : Expr)
  | sub (x y : Expr)
  | mul (x y : Expr)
  | divE (x y : Expr)
  | greaterEqual (x y : Expr)
  | selectV2 (c x y : Expr)
  | matMul (a b : Expr)
  | biasAdd (v b : Expr)
  | reshape (x : Expr) (shape : List ℤ)
  | broadcastTo (v : HF) (shape : List ℤ)
  | leakyRelu (x : Expr) (alpha : HF)
  | conv2D (input filter : Expr) (strides : List ℤ) (padding : String)
  | conv2DBackpropInput (inputSizes filter outBackprop : Expr)
      (strides : List ℤ) (padding : String)
  | fusedBatchNormY (x scale offset mean variance : Expr) (epsilon : HF)
  deriving DecidableEq, Repr

/-- An `Assign(scope, target, value)` graph op; `target` is always a
`varNode`. -/
structure Asgn where
  target : Expr
  value : Expr
  deriving DecidableEq, Repr

/-- Name of an assign target (`varNode`). -/
def tgtName : Expr → String
  | .varNode n _ => n
  | _ => ""

/-- Shape of an assign target (`varNode`). -/
def tgtShape : Expr → List ℤ
  | .varNode _ s => s
  | _ => []

/-- Transcendental primitives of the framework ops, abstracted as plain
functions on `ℚ` (floats modelled as exact rationals). -/
structure Prims where
  rsqrt : ℚ → ℚ
  exp : ℚ → ℚ
  log1p : ℚ → ℚ
  sqrt : ℚ → ℚ

/-! ## Element-wise scalar semantics of the helper constructors

Each definition transcribes the op sequence of the corresponding C++
constructor, with every framework op replaced by the scalar function it
computes on one tensor element.  `Cast(_, DT_FLOAT)` on a float tensor is
the identity. -/

/-- `BatchNormalization::BatchNormalization`: the value the built subgraph
computes on one element.  Note the C++ body never uses the `scale` input
(it is accepted and ignored). -/
def batchNormalizationSem (P : Prims) (x mean variance offset scale
    variance_epsilon : ℚ) : ℚ :=
  let _unused := scale
  let inv := P.rsqrt (variance + variance_epsilon)
  let ret1 := x * inv
  let ret2 := mean * inv
  ret1 + (offset - ret2)

/-- Modelled from the spec: the reference batch-normalization formula
annotated in the comment above `BatchNormalization` in the source, in which
`inv` is multiplied by `scale` when scale is provided (the constructor
always receives a `scale` input). -/
def batchNormalizationRef (P : Prims) (x mean variance offset scale
    variance_epsilon : ℚ) : ℚ :=
  let inv := P.rsqrt (variance + variance_epsilon) * scale
  x * inv + (offset - mean * inv)

/-- `Dropout::Dropout` on one element: `rate` is the `const int` parameter,
`u` the element of the `RandomUniform` tensor drawn in `[0, 1)`. -/
def dropoutSem (x : ℚ) (rate : ℤ) (u : ℚ) : ℚ :=
  let keep_prob : ℚ := 1 - (rate : ℚ)
  let random_tensor := u + keep_prob
  let binary_tensor : ℚ := ((⌊random_tensor⌋ : ℤ) : ℚ)
  (x / keep_prob) * binary_tensor

/-- Modelled from the spec: the dropout behaviour claimed for the
Discriminator stages: keep probability `0.7`, elements scaled by `1 / 0.7`
and multiplied by the 0/1 keep mask derived from the same uniform draw. -/
def dropoutRef (x : ℚ) (u : ℚ) : ℚ :=
  (x / (7/10)) * ((⌊u + 7/10⌋ : ℤ) : ℚ)

/-- `SigmoidCrossEntropyWithLogits::SigmoidCrossEntropyWithLogits` on one
element (`SelectV2` is the pointwise conditional, `GreaterEqual` the
pointwise comparison). -/
def sigmoidCrossEntropyWithLogitsSem (P : Prims) (labels logits : ℚ) : ℚ :=
  let zeros : ℚ := 0
  let cond : Prop := logits ≥ zeros
  let relu_logits := if logits ≥ zeros then logits else zeros
  let neg_abs_logits := if logits ≥ zeros then -logits else logits
  let _unused := cond
  (relu_logits - logits * labels) + P.log1p (P.exp neg_abs_logits)

/-- Fan-in and fan-out as `GlorotUniform::GlorotUniform` computes them from
`shape_vec`.  The C++ code reads `shape_vec[0]` and `shape_vec[1]`
unconditionally, which is out of bounds (undefined behaviour) when the
shape has fewer than two elements; we model that precondition as `none`. -/
def glorotFans (shape : List ℤ) : Option (ℚ × ℚ) :=
  if 2 ≤ shape.length then
    let fan_in : ℚ := ((shape.getD 0 0 : ℤ) : ℚ)
    let fan_out : ℚ := ((shape.getD 1 0 : ℤ) : ℚ)
    if shape.length = 4 then
      let receptive_field_size : ℚ :=
        1 * ((shape.getD 0 0 : ℤ) : ℚ) * ((shape.getD 1 0 : ℤ) : ℚ)
      some (receptive_field_size * ((shape.getD 2 0 : ℤ) : ℚ),
            receptive_field_size * ((shape.getD 3 0 : ℤ) : ℚ))
    else
      some (fan_in, fan_out)
  else none

/-- The host-side `scale` value of `GlorotUniform` (exact rational). -/
def glorotScaleQ (shape : List ℤ) : ℚ :=
  match glorotFans shape with
  | some (fan_in, fan_out) => 1 / max 1 ((fan_in + fan_out) / 2)
  | none => 0

/-- `GlorotUniform::GlorotUniform` on one element: `u` is the element of
the `RandomUniform` tensor drawn in `[0, 1)`; the built node computes
`u * (maxval - minval) + minval`. -/
def glorotUniformSem (P : Prims) (shape : List ℤ) (u : ℚ) : Option ℚ :=
  (glorotFans shape).map fun fans =>
    let scale : ℚ := 1 / max 1 ((fans.1 + fans.2) / 2)
    let limit := P.sqrt (3 * scale)
    let maxval := limit
    let minval := -limit
    u * (maxval - minval) + minval

/-! ## Syntactic graph builders, transcribed op by op from the file -/

/-- `BatchNormalization::BatchNormalization` as the graph it builds. -/
def BatchNormalizationE (x mean variance offset scale
    variance_epsilon : Expr) : Expr :=
  let _unused := scale
  let inv := Expr.rsqrt (Expr.add variance variance_epsilon)
  let ret1 := Expr.mul x (Expr.castF inv)
  let ret2 := Expr.mul mean inv
  Expr.add ret1 (Expr.castF (Expr.sub offset ret2))

/-- `Dropout::Dropout` as the graph it builds (`rate` is the `const int`
parameter; `keep_prob` is the host float `1 - rate`). -/
def DropoutE (x : Expr) (rate : ℤ) : Expr :=
  let keep_prob : ℚ := 1 - (rate : ℚ)
  let random_value5 := Expr.randomUniform (Expr.shapeOf x)
  let random_tensor := Expr.add random_value5 (Expr.constFList [.ofRat keep_prob])
  let binary_tensor := Expr.floorE random_tensor
  Expr.mul (Expr.divE x (Expr.constFList [.ofRat keep_prob])) binary_tensor

/-- `SigmoidCrossEntropyWithLogits::SigmoidCrossEntropyWithLogits` as the
graph it builds. -/
def SigmoidCrossEntropyWithLogitsE (labels logits : Expr) : Expr :=
  let zeros := Expr.zerosLike logits
  let cond := Expr.greaterEqual logits zeros
  let relu_logits := Expr.selectV2 cond logits zeros
  let neg_abs_logits := Expr.selectV2 cond (Expr.negE logits) logits
  Expr.add (Expr.sub relu_logits (Expr.mul logits labels))
    (Expr.log1pE (Expr.expE neg_abs_logits))

/-- `GlorotUniform::GlorotUniform` as the graph it builds: host-side fan,
scale and limit computation followed by `Add(Mul(rnd, maxval - minval),
minval)`. -/
def GlorotUniformE (shape : List ℤ) : Expr :=
  let random_value := Expr.randomUniform (Expr.constIntList shape)
  let limit : HF := .sqrt (.ofRat (3 * glorotScaleQ shape))
  let maxval : HF := limit
  let minval : HF := .neg limit
  Expr.add (Expr.mul random_value (Expr.constF (.sub maxval minval)))
    (Expr.constF minval)

/-- `Conv2DTranspose::Conv2DTranspose` as the graph it builds. -/
def Conv2DTransposeE (input_sizes filter out_backprop : Expr)
    (strides : List ℤ) (padding : String) : Expr :=
  Expr.conv2DBackpropInput input_sizes filter out_backprop strides padding

/-- The list of graph nodes the `Conv2DTranspose` constructor itself adds:
it makes exactly one op call. -/
def Conv2DTransposeNodes (input_sizes filter out_backprop : Expr)
    (strides : List ℤ) (padding : String) : List Expr :=
  [Conv2DTransposeE input_sizes filter out_backprop strides padding]

/-! ## Generator -/

/-- The fields `Generator::Generator` stores on `this`: every `Variable`
and every `Assign` op the constructor builds, plus the output. -/
structure Generator where
  w1 : Expr
  assign_w1 : Asgn
  w1_wm : Expr
  assign_w1_wm : Asgn
  w1_wv : Expr
  assign_w1_wv : Asgn
  filter : Expr
  assign_filter : Asgn
  filter_wm : Expr
  assign_filter_wm : Asgn
  filter_wv : Expr
  assign_filter_wv : Asgn
  filter2 : Expr
  assign_filter2 : Asgn
  filter2_wm : Expr
  assign_filter2_wm : Asgn
  filter2_wv : Expr
  assign_filter2_wv : Asgn
  filter3 : Expr
  assign_filter3 : Asgn
  filter3_wm : Expr
  assign_filter3_wm : Asgn
  filter3_wv : Expr
  assign_filter3_wv : Asgn
  output : Expr
  deriving DecidableEq, Repr

/-- `Generator::Generator(scope, batch_size)`, transcribed op by op.
`NOISE_DIM`, `UNITS` and `NUM_CHANNELS` are the constants from the
example's header (not part of this translation unit), kept symbolic. -/
def mkGenerator (NOISE_DIM UNITS NUM_CHANNELS batch_size : ℤ) : Generator :=
  let noise := Expr.randomNormal [batch_size, NOISE_DIM]
  let w1 := Expr.varNode "w1" [NOISE_DIM, UNITS]
  let rate := Expr.constFList [.ofRat (1/100)]
  let random_value := Expr.randomNormal [NOISE_DIM, UNITS]
  let assign_w1 : Asgn := ⟨w1, Expr.mul random_value rate⟩
  let dense := Expr.matMul noise w1
  let w1_wm := Expr.varNode "w1_wm" [NOISE_DIM, UNITS]
  let assign_w1_wm : Asgn := ⟨w1_wm, Expr.zerosLike w1⟩
  let w1_wv := Expr.varNode "w1_wv" [NOISE_DIM, UNITS]
  let assign_w1_wv : Asgn := ⟨w1_wv, Expr.zerosLike w1⟩
  let mean := Expr.constFList [.ofRat 0]
  let variance := Expr.constFList [.ofRat 1]
  let offset := Expr.constFList [.ofRat 0]
  let scale := Expr.constFList [.ofRat 1]
  let variance_epsilon := Expr.constFList [.ofRat (1/1000)]
  let batchnorm := BatchNormalizationE dense mean variance offset scale
    variance_epsilon
  let leakyrelu := Expr.leakyRelu batchnorm (.ofRat (3/10))
  let reshape1 := Expr.reshape leakyrelu [batch_size, 7, 7, 256]
  let input_sizes := Expr.constIntList [batch_size, 7, 7, 128]
  let filter := Expr.varNode "filter" [5, 5, 128, 256]
  let random_value1 := GlorotUniformE [5, 5, 128, 256]
  let assign_filter : Asgn := ⟨filter, random_value1⟩
  let filter_wm := Expr.varNode "filter_wm" [5, 5, 128, 256]
  let assign_filter_wm : Asgn := ⟨filter_wm, Expr.zerosLike filter⟩
  let filter_wv := Expr.varNode "filter_wv" [5, 5, 128, 256]
  let assign_filter_wv : Asgn := ⟨filter_wv, Expr.zerosLike filter⟩
  let deconv1 := Conv2DTransposeE input_sizes filter reshape1
    [1, 1, 1, 1] "SAME"
  let mean1 := Expr.constFList []
  let variance1 := Expr.constFList []
  let offset1 := Expr.broadcastTo (.ofRat 0) [128]
  let scale1 := Expr.broadcastTo (.ofRat 1) [128]
  let batchnorm1 := Expr.fusedBatchNormY deconv1 scale1 offset1 mean1
    variance1 (.ofRat (1/1000))
  let leakyrelu1 := Expr.leakyRelu batchnorm1 (.ofRat (3/10))
  let input_sizes2 := Expr.constIntList [batch_size, 14, 14, 64]
  let filter2 := Expr.varNode "filter2" [5, 5, 64, 128]
  let random_value2 := GlorotUniformE [5, 5, 64, 128]
  let assign_filter2 : Asgn := ⟨filter2, random_value2⟩
  let filter2_wm := Expr.varNode "filter2_wm" [5, 5, 64, 128]
  let assign_filter2_wm : Asgn := ⟨filter2_wm, Expr.zerosLike filter2⟩
  let filter2_wv := Expr.varNode "filter2_wv" [5, 5, 64, 128]
  let assign_filter2_wv : Asgn := ⟨filter2_wv, Expr.zerosLike filter2⟩
  let deconv2 := Conv2DTransposeE input_sizes2 filter2 leakyrelu1
    [1, 2, 2, 1] "SAME"
  let offset2 := Expr.broadcastTo (.ofRat 0) [64]
  let scale2 := Expr.broadcastTo (.ofRat 1) [64]
  let batchnorm2 := Expr.fusedBatchNormY deconv2 scale2 offset2 mean1
    variance1 (.ofRat (1/1000))
  let leakyrelu2 := Expr.leakyRelu batchnorm2 (.ofRat (3/10))
  let input_sizes3 := Expr.constIntList [batch_size, 28, 28, NUM_CHANNELS]
  let filter3 := Expr.varNode "filter3" [5, 5, NUM_CHANNELS, 64]
  let random_value3 := GlorotUniformE [5, 5, NUM_CHANNELS, 64]
  let assign_filter3 : Asgn := ⟨filter3, random_value3⟩
  let filter3_wm := Expr.varNode "filter3_wm" [5, 5, NUM_CHANNELS, 64]
  let assign_filter3_wm : Asgn := ⟨filter3_wm, Expr.zerosLike filter3⟩
  let filter3_wv := Expr.varNode "filter3_wv" [5, 5, NUM_CHANNELS, 64]
  let assign_filter3_wv : Asgn := ⟨filter3_wv, Expr.zerosLike filter3⟩
  let output := Conv2DTransposeE input_sizes3 filter3 leakyrelu2
    [1, 2, 2, 1] "SAME"
  { w1 := w1, assign_w1 := assign_w1,
    w1_wm := w1_wm, assign_w1_wm := assign_w1_wm,
    w1_wv := w1_wv, assign_w1_wv := assign_w1_wv,
    filter := filter, assign_filter := assign_filter,
    filter_wm := filter_wm, assign_filter_wm := assign_filter_wm,
    filter_wv := filter_wv, assign_filter_wv := assign_filter_wv,
    filter2 := filter2, assign_filter2 := assign_filter2,
    filter2_wm := filter2_wm, assign_filter2_wm := assign_filter2_wm,
    filter2_wv := filter2_wv, assign_filter2_wv := assign_filter2_wv,
    filter3 := filter3, assign_filter3 := assign_filter3,
    filter3_wm := filter3_wm, assign_filter3_wm := assign_filter3_wm,
    filter3_wv := filter3_wv, assign_filter3_wv := assign_filter3_wv,
    output := output }

/-- All `Assign` ops the Generator constructor builds (each one is stored
in a field; the constructor builds no other state-writing op). -/
def Generator.assigns (g : Generator) : List Asgn :=
  [g.assign_w1, g.assign_w1_wm, g.assign_w1_wv,
   g.assign_filter, g.assign_filter_wm, g.assign_filter_wv,
   g.assign_filter2, g.assign_filter2_wm, g.assign_filter2_wv,
   g.assign_filter3, g.assign_filter3_wm, g.assign_filter3_wv]

/-! ## Discriminator -/

/-- `s1` as the Discriminator constructors compute it from `IMAGE_SIZE`
(`int` arithmetic: truncating division, then `std::pow(s1, 2) * 128`). -/
def s1Val (IMAGE_SIZE : ℤ) : ℤ := (Int.tdiv IMAGE_SIZE 4) ^ 2 * 128

/-- The fields `Discriminator::Discriminator` stores on `this`: every
`Variable` and every `Assign` op the primary constructor builds, plus the
output. -/
structure Discriminator where
  conv1_weights : Expr
  assign_conv1_weights : Asgn
  conv1_biases : Expr
  assign_conv1_biases : Asgn
  conv2_weights : Expr
  assign_conv2_weights : Asgn
  conv2_biases : Expr
  assign_conv2_biases : Asgn
  fc1_weights : Expr
  assign_fc1_weights : Asgn
  fc1_biases : Expr
  assign_fc1_biases : Asgn
  conv1_wm : Expr
  assign_conv1_wm : Asgn
  conv1_wv : Expr
  assign_conv1_wv : Asgn
  conv1_bm : Expr
  assign_conv1_bm : Asgn
  conv1_bv : Expr
  assign_conv1_bv : Asgn
  conv2_wm : Expr
  assign_conv2_wm : Asgn
  conv2_wv : Expr
  assign_conv2_wv : Asgn
  conv2_bm : Expr
  assign_conv2_bm : Asgn
  conv2_bv : Expr
  assign_conv2_bv : Asgn
  fc1_wm : Expr
  assign_fc1_wm : Asgn
  fc1_wv : Expr
  assign_fc1_wv : Asgn
  fc1_bm : Expr
  assign_fc1_bm : Asgn
  fc1_bv : Expr
  assign_fc1_bv : Asgn
  output : Expr
  deriving DecidableEq, Repr

/-- `Discriminator::Discriminator(scope, inputs, batch_size)` (the primary
constructor), transcribed op by op.  `NUM_CHANNELS` and `IMAGE_SIZE` are
the constants from the example's header, kept symbolic.  The dropout rate
argument at each call site is the C++ literal `0.3f` converted to the
`const int` parameter, i.e. truncated. -/
def mkDiscriminator (NUM_CHANNELS IMAGE_SIZE : ℤ) (inputs : Expr)
    (batch_size : ℤ) : Discriminator :=
  let conv1_weights := Expr.varNode "conv1_weights" [5, 5, NUM_CHANNELS, 64]
  let random_value := GlorotUniformE [5, 5, NUM_CHANNELS, 64]
  let assign_conv1_weights : Asgn := ⟨conv1_weights, random_value⟩
  let conv1_biases := Expr.varNode "conv1_biases" [64]
  let assign_conv1_biases : Asgn := ⟨conv1_biases, Expr.hostZeros [64]⟩
  let conv2_weights := Expr.varNode "conv2_weights" [5, 5, 64, 128]
  let random_value2 := GlorotUniformE [5, 5, 64, 128]
  let assign_conv2_weights : Asgn := ⟨conv2_weights, random_value2⟩
  let conv2_biases := Expr.varNode "conv2_biases" [128]
  let assign_conv2_biases : Asgn :=
    ⟨conv2_biases, Expr.constFShaped (.ofRat 0) [128]⟩
  let s1 := s1Val IMAGE_SIZE
  let fc1_weights := Expr.varNode "fc1_weights" [s1, 1]
  let random_value3 := GlorotUniformE [s1, 1]
  let assign_fc1_weights : Asgn := ⟨fc1_weights, random_value3⟩
  let fc1_biases := Expr.varNode "fc1_biases" [1]
  let assign_fc1_biases : Asgn :=
    ⟨fc1_biases, Expr.constFShaped (.ofRat 0) [1]⟩
  let conv1_wm := Expr.varNode "conv1_wm" [5, 5, NUM_CHANNELS, 64]
  let assign_conv1_wm : Asgn := ⟨conv1_wm, Expr.zerosLike conv1_weights⟩
  let conv1_wv := Expr.varNode "conv1_wv" [5, 5, NUM_CHANNELS, 64]
  let assign_conv1_wv : Asgn := ⟨conv1_wv, Expr.zerosLike conv1_weights⟩
  let conv1_bm := Expr.varNode "conv1_bm" [64]
  let assign_conv1_bm : Asgn := ⟨conv1_bm, Expr.zerosLike conv1_biases⟩
  let conv1_bv := Expr.varNode "conv1_bv" [64]
  let assign_conv1_bv : Asgn := ⟨conv1_bv, Expr.zerosLike conv1_biases⟩
  let conv2_wm := Expr.varNode "conv2_wm" [5, 5, 64, 128]
  let assign_conv2_wm : Asgn := ⟨conv2_wm, Expr.zerosLike conv2_weights⟩
  let conv2_wv := Expr.varNode "conv2_wv" [5, 5, 64, 128]
  let assign_conv2_wv : Asgn := ⟨conv2_wv, Expr.zerosLike conv2_weights⟩
  let conv2_bm := Expr.varNode "conv2_bm" [128]
  let assign_conv2_bm : Asgn := ⟨conv2_bm, Expr.zerosLike conv2_biases⟩
  let conv2_bv := Expr.varNode "conv2_bv" [128]
  let assign_conv2_bv : Asgn := ⟨conv2_bv, Expr.zerosLike conv2_biases⟩
  let fc1_wm := Expr.varNode "fc1_wm" [s1, 1]
  let assign_fc1_wm : Asgn := ⟨fc1_wm, Expr.zerosLike fc1_weights⟩
  let fc1_wv := Expr.varNode "fc1_wv" [s1, 1]
  let assign_fc1_wv : Asgn := ⟨fc1_wv, Expr.zerosLike fc1_weights⟩
  let fc1_bm := Expr.varNode "fc1_bm" [1]
  let assign_fc1_bm : Asgn := ⟨fc1_bm, Expr.zerosLike fc1_biases⟩
  let fc1_bv := Expr.varNode "fc1_bv" [1]
  let assign_fc1_bv : Asgn := ⟨fc1_bv, Expr.zerosLike fc1_biases⟩
  let conv2d_1 := Expr.conv2D inputs conv1_weights [1, 2, 2, 1] "SAME"
  let relu_1 := Expr.leakyRelu (Expr.biasAdd conv2d_1 conv1_biases)
    (.ofRat (3/10))
  let dropout_1 := DropoutE relu_1 (cppTruncToInt (3/10))
  let conv2d_2 := Expr.conv2D dropout_1 conv2_weights [1, 2, 2, 1] "SAME"
  let relu_2 := Expr.leakyRelu (Expr.biasAdd conv2d_2 conv2_biases)
    (.ofRat (3/10))
  let dropout_2 := DropoutE relu_2 (cppTruncToInt (3/10))
  let reshape1 := Expr.reshape dropout_2 [batch_size, s1]
  let output := Expr.biasAdd (Expr.matMul reshape1 fc1_weights) fc1_biases
  { conv1_weights := conv1_weights,
    assign_conv1_weights := assign_conv1_weights,
    conv1_biases := conv1_biases,
    assign_conv1_biases := assign_conv1_biases,
    conv2_weights := conv2_weights,
    assign_conv2_weights := assign_conv2_weights,
    conv2_biases := conv2_biases,
    assign_conv2_biases := assign_conv2_biases,
    fc1_weights := fc1_weights,
    assign_fc1_weights := assign_fc1_weights,
    fc1_biases := fc1_biases,
    assign_fc1_biases := assign_fc1_biases,
    conv1_wm := conv1_wm, assign_conv1_wm := assign_conv1_wm,
    conv1_wv := conv1_wv, assign_conv1_wv := assign_conv1_wv,
    conv1_bm := conv1_bm, assign_conv1_bm := assign_conv1_bm,
    conv1_bv := conv1_bv, assign_conv1_bv := assign_conv1_bv,
    conv2_wm := conv2_wm, assign_conv2_wm := assign_conv2_wm,
    conv2_wv := conv2_wv, assign_conv2_wv := assign_conv2_wv,
    conv2_bm := conv2_bm, assign_conv2_bm := assign_conv2_bm,
    conv2_bv := conv2_bv, assign_conv2_bv := assign_conv2_bv,
    fc1_wm := fc1_wm, assign_fc1_wm := assign_fc1_wm,
    fc1_wv := fc1_wv, assign_fc1_wv := assign_fc1_wv,
    fc1_bm := fc1_bm, assign_fc1_bm := assign_fc1_bm,
    fc1_bv := fc1_bv, assign_fc1_bv := assign_fc1_bv,
    output := output }

/-- `Discriminator::Discriminator(scope, disc, inputs, batch_size)` (the
weight-sharing overload): builds only the forward pipeline, on the weight
variables of the given discriminator; it stores no variables or assigns.
Its result is the `output` field it sets. -/
def mkDiscriminatorShared (IMAGE_SIZE : ℤ) (disc : Discriminator)
    (inputs : Expr) (batch_size : ℤ) : Expr :=
  let conv2d_1 := Expr.conv2D inputs disc.conv1_weights [1, 2, 2, 1] "SAME"
  let relu_1 := Expr.leakyRelu (Expr.biasAdd conv2d_1 disc.conv1_biases)
    (.ofRat (3/10))
  let dropout_1 := DropoutE relu_1 (cppTruncToInt (3/10))
  let conv2d_2 := Expr.conv2D dropout_1 disc.conv2_weights [1, 2, 2, 1] "SAME"
  let relu_2 := Expr.leakyRelu (Expr.biasAdd conv2d_2 disc.conv2_biases)
    (.ofRat (3/10))
  let dropout_2 := DropoutE relu_2 (cppTruncToInt (3/10))
  let s1 := s1Val IMAGE_SIZE
  let reshape1 := Expr.reshape dropout_2 [batch_size, s1]
  Expr.biasAdd (Expr.matMul reshape1 disc.fc1_weights) disc.fc1_biases

/-- All `Assign` ops the primary Discriminator constructor builds (each
one is stored in a field; the weight-sharing overload builds none). -/
def Discriminator.assigns (d : Discriminator) : List Asgn :=
  [d.assign_conv1_weights, d.assign_conv1_biases,
   d.assign_conv2_weights, d.assign_conv2_biases,
   d.assign_fc1_weights, d.assign_fc1_biases,
   d.assign_conv1_wm, d.assign_conv1_wv, d.assign_conv1_bm, d.assign_conv1_bv,
   d.assign_conv2_wm, d.assign_conv2_wv, d.assign_conv2_bm, d.assign_conv2_bv,
   d.assign_fc1_wm, d.assign_fc1_wv, d.assign_fc1_bm, d.assign_fc1_bv]

/-- Does a variable name end in `_wm`, `_wv`, `_bm` or `_bv` (the
Adam-style moment accumulators)? -/
def isAccumName (s : String) : Bool :=
  "_wm".toList.isSuffixOf s.toList || "_wv".toList.isSuffixOf s.toList ||
  "_bm".toList.isSuffixOf s.toList || "_bv".toList.isSuffixOf s.toList

/-- The accumulator assigns among a list of assigns. -/
def accumAssigns (l : List Asgn) : List Asgn :=
  l.filter fun a => isAccumName (tgtName a.target)

/-- A claim-side description of the Discriminator forward pipeline,
abstracted over the weight tensors it reads: stride-2 SAME convolution,
bias add, leaky-ReLU (alpha 0.3), dropout — twice — then a reshape to
`[batch_size, s1]` and the dense classifier `MatMul` + `BiasAdd`. -/
def discForward (cw1 cb1 cw2 cb2 fw fb inputs : Expr)
    (batch_size IMAGE_SIZE : ℤ) : Expr :=
  let conv2d_1 := Expr.conv2D inputs cw1 [1, 2, 2, 1] "SAME"
  let relu_1 := Expr.leakyRelu (Expr.biasAdd conv2d_1 cb1) (.ofRat (3/10))
  let dropout_1 := DropoutE relu_1 (cppTruncToInt (3/10))
  let conv2d_2 := Expr.conv2D dropout_1 cw2 [1, 2, 2, 1] "SAME"
  let relu_2 := Expr.leakyRelu (Expr.biasAdd conv2d_2 cb2) (.ofRat (3/10))
  let dropout_2 := DropoutE relu_2 (cppTruncToInt (3/10))
  let reshape1 := Expr.reshape dropout_2 [batch_size, s1Val IMAGE_SIZE]
  Expr.biasAdd (Expr.matMul reshape1 fw) fb

/-- A fixed interpretation of the transcendental primitives used to
evaluate the embedded code at concrete inputs.  Its `rsqrt` is the
constant function 1, which agrees with the true reciprocal square root at
the argument 1 where it is applied below. -/
def primsProbe : Prims :=
  { rsqrt := fun _ => 1, exp := fun x => x, log1p := fun x => x,
    sqrt := fun x => x }

/-! ## Claims -/

/-- C1: evaluation of the `BatchNormalization` constructor's subgraph at
`x = 1`, `mean = 0`, `variance = 0`, `offset = 0`, `scale = 2`,
`variance_epsilon = 1` (so `rsqrt(variance + eps) = 1`): the code produces
`1` because its body never uses the `scale` input, while the reference
formula annotated in its comment — `inv` multiplied by `scale` — gives
`2`. -/
theorem BatchNormalization_drops_scale :
    batchNormalizationSem primsProbe 1 0 0 0 2 1 = 1 ∧
    batchNormalizationRef primsProbe 1 0 0 0 2 1 = 2 := by
  constructor <;>
    norm_num [batchNormalizationSem, batchNormalizationRef, primsProbe]

/-- C2: the Discriminator's dropout call sites pass the C++ float literal
`0.3f` to the `const int rate` parameter, which truncates it to `0`, so
`keep_prob = 1`: at input element `x = 5` with uniform draw `u = 1/5` the
built subgraph returns `5` unchanged (the mask `floor(u + 1)` is `1` and
the division is by `1`), whereas the claimed rate-0.3 dropout — divide by
`0.7` and mask by `floor(u + 0.7)` — returns `0`. -/
theorem Dropout_rate_truncated_to_zero :
    cppTruncToInt (3/10) = 0 ∧
    dropoutSem 5 (cppTruncToInt (3/10)) (1/5) = 5 ∧
    dropoutRef 5 (1/5) = 0 := by
  have h0 : cppTruncToInt (3/10) = 0 := by
    norm_num [cppTruncToInt, Int.floor_eq_zero_iff]
  refine ⟨h0, ?_, ?_⟩
  · rw [h0]; norm_num [dropoutSem, Int.floor_eq_iff]
  · norm_num [dropoutRef, Int.floor_eq_zero_iff]

/-- C3: for a 2D shape `[a, b]` (fan-in `a`, fan-out `b`) and a 4D shape
`[h, w, i, o]` (fan-in `h*w*i`, fan-out `h*w*o`), the `GlorotUniform`
subgraph maps the uniform sample `u` to `u * (limit - (-limit)) + (-limit)`
— the rescaling onto `[-limit, limit]` — with
`limit = sqrt(3 * scale)` and `scale = 1 / max(1, (fan_in + fan_out)/2)`. -/
theorem GlorotUniform_rescales (P : Prims) (a b h w i o : ℤ) (u : ℚ) :
    glorotUniformSem P [a, b] u =
      some (u * (P.sqrt (3 * (1 / max 1 (((a : ℚ) + (b : ℚ)) / 2))) -
          -P.sqrt (3 * (1 / max 1 (((a : ℚ) + (b : ℚ)) / 2)))) +
        -P.sqrt (3 * (1 / max 1 (((a : ℚ) + (b : ℚ)) / 2)))) ∧
    glorotUniformSem P [h, w, i, o] u =
      some (u * (P.sqrt (3 * (1 / max 1 ((((h : ℚ) * w * i) +
            ((h : ℚ) * w * o)) / 2))) -
          -P.sqrt (3 * (1 / max 1 ((((h : ℚ) * w * i) +
            ((h : ℚ) * w * o)) / 2)))) +
        -P.sqrt (3 * (1 / max 1 ((((h : ℚ) * w * i) +
          ((h : ℚ) * w * o)) / 2)))) := by
  constructor
  · simp [glorotUniformSem, glorotFans]
  · simp [glorotUniformSem, glorotFans]

/-- C4: the `SigmoidCrossEntropyWithLogits` subgraph computes, for labels
`z` and logits `x`, the stable logistic loss
`max(x, 0) - x * z + log1p(exp(-|x|))`, realized as
`select(x >= 0, x, 0) - x * z + log1p(exp(select(x >= 0, -x, x)))`. -/
theorem SigmoidCrossEntropyWithLogits_formula (P : Prims) (z x : ℚ) :
    sigmoidCrossEntropyWithLogitsSem P z x =
      max x 0 - x * z + P.log1p (P.exp (-|x|)) ∧
    sigmoidCrossEntropyWithLogitsSem P z x =
      (if x ≥ 0 then x else 0) - x * z +
        P.log1p (P.exp (if x ≥ 0 then -x else x)) := by
  constructor
  · unfold sigmoidCrossEntropyWithLogitsSem
    rcases le_or_lt 0 x with hx | hx
    · simp [ge_iff_le, hx, max_eq_left hx, abs_of_nonneg hx]
    · simp [ge_iff_le, not_le.mpr hx, le_of_lt hx,
        max_eq_right (le_of_lt hx), abs_of_neg hx]
  · unfold sigmoidCrossEntropyWithLogitsSem
    rcases le_or_lt 0 x with hx | hx
    · simp [ge_iff_le, hx]
    · simp [ge_iff_le, not_le.mpr hx]

/-- C5: among all `Assign` ops built anywhere in the file (they are
exactly the ones stored in the Generator's and Discriminator's fields; the
weight-sharing overload and the helpers build none), those whose target
name ends in `_wm`, `_wv`, `_bm` or `_bv` are precisely the twenty below —
each a single `Assign` of `ZerosLike(<associated weight>)`, a zero tensor
of the same shape as the accumulator — and their targets are pairwise
distinct, so each accumulator is written exactly once. -/
theorem accumulators_zero_init_only (ND UNITS NC IS b b2 : ℤ)
    (inputs : Expr) :
    accumAssigns ((mkGenerator ND UNITS NC b).assigns ++
        (mkDiscriminator NC IS inputs b2).assigns) =
      [⟨.varNode "w1_wm" [ND, UNITS], .zerosLike (.varNode "w1" [ND, UNITS])⟩,
       ⟨.varNode "w1_wv" [ND, UNITS], .zerosLike (.varNode "w1" [ND, UNITS])⟩,
       ⟨.varNode "filter_wm" [5, 5, 128, 256],
        .zerosLike (.varNode "filter" [5, 5, 128, 256])⟩,
       ⟨.varNode "filter_wv" [5, 5, 128, 256],
        .zerosLike (.varNode "filter" [5, 5, 128, 256])⟩,
       ⟨.varNode "filter2_wm" [5, 5, 64, 128],
        .zerosLike (.varNode "filter2" [5, 5, 64, 128])⟩,
       ⟨.varNode "filter2_wv" [5, 5, 64, 128],
        .zerosLike (.varNode "filter2" [5, 5, 64, 128])⟩,
       ⟨.varNode "filter3_wm" [5, 5, NC, 64],
        .zerosLike (.varNode "filter3" [5, 5, NC, 64])⟩,
       ⟨.varNode "filter3_wv" [5, 5, NC, 64],
        .zerosLike (.varNode "filter3" [5, 5, NC, 64])⟩,
       ⟨.varNode "conv1_wm" [5, 5, NC, 64],
        .zerosLike (.varNode "conv1_weights" [5, 5, NC, 64])⟩,
       ⟨.varNode "conv1_wv" [5, 5, NC, 64],
        .zerosLike (.varNode "conv1_weights" [5, 5, NC, 64])⟩,
       ⟨.varNode "conv1_bm" [64], .zerosLike (.varNode "conv1_biases" [64])⟩,
       ⟨.varNode "conv1_bv" [64], .zerosLike (.varNode "conv1_biases" [64])⟩,
       ⟨.varNode "conv2_wm" [5, 5, 64, 128],
        .zerosLike (.varNode "conv2_weights" [5, 5, 64, 128])⟩,
       ⟨.varNode "conv2_wv" [5, 5, 64, 128],
        .zerosLike (.varNode "conv2_weights" [5, 5, 64, 128])⟩,
       ⟨.varNode "conv2_bm" [128], .zerosLike (.varNode "conv2_biases" [128])⟩,
       ⟨.varNode "conv2_bv" [128], .zerosLike (.varNode "conv2_biases" [128])⟩,
       ⟨.varNode "fc1_wm" [s1Val IS, 1],
        .zerosLike (.varNode "fc1_weights" [s1Val IS, 1])⟩,
       ⟨.varNode "fc1_wv" [s1Val IS, 1],
        .zerosLike (.varNode "fc1_weights" [s1Val IS, 1])⟩,
       ⟨.varNode "fc1_bm" [1], .zerosLike (.varNode "fc1_biases" [1])⟩,
       ⟨.varNode "fc1_bv" [1], .zerosLike (.varNode "fc1_biases" [1])⟩] ∧
    (["w1_wm", "w1_wv", "filter_wm", "filter_wv", "filter2_wm", "filter2_wv",
      "filter3_wm", "filter3_wv", "conv1_wm", "conv1_wv", "conv1_bm",
      "conv1_bv", "conv2_wm", "conv2_wv", "conv2_bm", "conv2_bv", "fc1_wm",
      "fc1_wv", "fc1_bm", "fc1_bv"] : List String).Nodup :=
  ⟨rfl, by decide⟩

/-- C6: the Generator's output graph is exactly the pipeline
noise → `MatMul` with `w1` → `BatchNormalization` → leaky-ReLU → reshape
to `[batch_size, 7, 7, 256]` → transposed convolution (stride 1) →
fused batch norm → leaky-ReLU → transposed convolution (stride 2) →
fused batch norm → leaky-ReLU → transposed convolution (stride 2), whose
result is the output. -/
theorem Generator_pipeline (ND UNITS NC b : ℤ) :
    (mkGenerator ND UNITS NC b).output =
      Conv2DTransposeE (.constIntList [b, 28, 28, NC])
        (.varNode "filter3" [5, 5, NC, 64])
        (.leakyRelu
          (.fusedBatchNormY
            (Conv2DTransposeE (.constIntList [b, 14, 14, 64])
              (.varNode "filter2" [5, 5, 64, 128])
              (.leakyRelu
                (.fusedBatchNormY
                  (Conv2DTransposeE (.constIntList [b, 7, 7, 128])
                    (.varNode "filter" [5, 5, 128, 256])
                    (.reshape
                      (.leakyRelu
                        (BatchNormalizationE
                          (.matMul (.randomNormal [b, ND])
                            (.varNode "w1" [ND, UNITS]))
                          (.constFList [.ofRat 0]) (.constFList [.ofRat 1])
                          (.constFList [.ofRat 0]) (.constFList [.ofRat 1])
                          (.constFList [.ofRat (1/1000)]))
                        (.ofRat (3/10)))
                      [b, 7, 7, 256])
                    [1, 1, 1, 1] "SAME")
                  (.broadcastTo (.ofRat 1) [128])
                  (.broadcastTo (.ofRat 0) [128])
                  (.constFList []) (.constFList []) (.ofRat (1/1000)))
                (.ofRat (3/10)))
              [1, 2, 2, 1] "SAME")
            (.broadcastTo (.ofRat 1) [64]) (.broadcastTo (.ofRat 0) [64])
            (.constFList []) (.constFList []) (.ofRat (1/1000)))
          (.ofRat (3/10)))
        [1, 2, 2, 1] "SAME" := rfl

/-- C7: the Discriminator's output graph is exactly two stages of
stride-2 SAME convolution + bias add + leaky-ReLU (alpha 0.3) + dropout,
then a reshape to `[batch_size, s1]` with `s1 = (IMAGE_SIZE/4)^2 * 128`
(truncating integer division) and the dense classifier: `MatMul` with the
`[s1, 1]` weights `fc1_weights` plus `BiasAdd` of the `[1]` biases
`fc1_biases`, one logit per batch element. -/
theorem Discriminator_pipeline (NC IS b : ℤ) (inputs : Expr) :
    (mkDiscriminator NC IS inputs b).output =
      Expr.biasAdd
        (Expr.matMul
          (Expr.reshape
            (DropoutE
              (Expr.leakyRelu
                (Expr.biasAdd
                  (Expr.conv2D
                    (DropoutE
                      (Expr.leakyRelu
                        (Expr.biasAdd
                          (Expr.conv2D inputs
                            (.varNode "conv1_weights" [5, 5, NC, 64])
                            [1, 2, 2, 1] "SAME")
                          (.varNode "conv1_biases" [64]))
                        (.ofRat (3/10)))
                      (cppTruncToInt (3/10)))
                    (.varNode "conv2_weights" [5, 5, 64, 128])
                    [1, 2, 2, 1] "SAME")
                  (.varNode "conv2_biases" [128]))
                (.ofRat (3/10)))
              (cppTruncToInt (3/10)))
            [b, (Int.tdiv IS 4) ^ 2 * 128])
          (.varNode "fc1_weights" [(Int.tdiv IS 4) ^ 2 * 128, 1]))
        (.varNode "fc1_biases" [1]) := rfl

/-- C8: the `Conv2DTranspose` constructor's output is exactly the
framework's `Conv2DBackpropInput` op applied to the same arguments in the
same order, and the constructor adds only that single node to the graph. -/
theorem Conv2DTranspose_is_backprop_input (input_sizes filter
    out_backprop : Expr) (strides : List ℤ) (padding : String) :
    Conv2DTransposeE input_sizes filter out_backprop strides padding =
      Expr.conv2DBackpropInput input_sizes filter out_backprop strides
        padding ∧
    Conv2DTransposeNodes input_sizes filter out_backprop strides padding =
      [Expr.conv2DBackpropInput input_sizes filter out_backprop strides
        padding] :=
  ⟨rfl, rfl⟩

/-- C9: the weight-sharing Discriminator constructor builds, for any
discriminator `d`, inputs and batch size, exactly the abstract forward
pipeline `discForward` on `d`'s weight variables; the primary constructor
builds the same pipeline on its own weight variables; hence on a
discriminator built by the primary constructor (same weight values in the
same variables) the two constructors build identical forward graphs —
same layer sequence, strides, padding and flattened size `s1`. -/
theorem Discriminator_shared_weights_equiv (NC IS b b2 : ℤ)
    (inputs inputs2 : Expr) (d : Discriminator) :
    mkDiscriminatorShared IS d inputs2 b2 =
      discForward d.conv1_weights d.conv1_biases d.conv2_weights
        d.conv2_biases d.fc1_weights d.fc1_biases inputs2 b2 IS ∧
    (mkDiscriminator NC IS inputs b).output =
      discForward (.varNode "conv1_weights" [5, 5, NC, 64])
        (.varNode "conv1_biases" [64]) (.varNode "conv2_weights" [5, 5, 64, 128])
        (.varNode "conv2_biases" [128]) (.varNode "fc1_weights" [s1Val IS, 1])
        (.varNode "fc1_biases" [1]) inputs b IS ∧
    mkDiscriminatorShared IS (mkDiscriminator NC IS inputs b) inputs2 b2 =
      (mkDiscriminator NC IS inputs2 b2).output :=
  ⟨rfl, rfl, rfl⟩

/-- C10: `GlorotUniform` reads elements 0 and 1 of the shape
unconditionally, so its result is defined exactly when the shape has at
least two elements; every shape whose length is not 4 takes its fan-in and
fan-out from elements 0 and 1 as in the 2D case, and the 4D
receptive-field computation (elements 2 and 3 scaled by the product of
elements 0 and 1) applies exactly when the length is 4. -/
theorem GlorotUniform_shape_cases (P : Prims) (u : ℚ) :
    (∀ shape : List ℤ,
      (glorotUniformSem P shape u).isSome = true ↔ 2 ≤ shape.length) ∧
    (∀ shape : List ℤ, 2 ≤ shape.length → shape.length ≠ 4 →
      glorotFans shape =
        some (((shape.getD 0 0 : ℤ) : ℚ), ((shape.getD 1 0 : ℤ) : ℚ))) ∧
    (∀ shape : List ℤ, shape.length = 4 →
      glorotFans shape =
        some (((shape.getD 0 0 : ℤ) : ℚ) * ((shape.getD 1 0 : ℤ) : ℚ) *
            ((shape.getD 2 0 : ℤ) : ℚ),
          ((shape.getD 0 0 : ℤ) : ℚ) * ((shape.getD 1 0 : ℤ) : ℚ) *
            ((shape.getD 3 0 : ℤ) : ℚ))) := by
  refine ⟨?_, ?_, ?_⟩
  · intro shape
    by_cases hl : 2 ≤ shape.length
    · by_cases h4 : shape.length = 4 <;>
        simp [glorotUniformSem, glorotFans, hl, h4]
    · simp [glorotUniformSem, glorotFans, hl]
  · intro shape h1 h2
    simp [glorotFans, h1, h2]
  · intro shape h4
    have h2 : 2 ≤ shape.length := by omega
    simp [glorotFans, h2, h4, mul_assoc]

/-- Concrete instance of `GlorotUniform_shape_cases`: the 3D shape
`[3, 5, 7]` takes fans from elements 0 and 1, and the 4D shape
`[5, 5, 128, 256]` takes the receptive-field fans. -/
theorem GlorotUniform_shape_cases_witness :
    glorotFans [3, 5, 7] = some ((3 : ℚ), (5 : ℚ)) ∧
    glorotFans [5, 5, 128, 256] = some ((3200 : ℚ), (6400 : ℚ)) := by
  constructor
  · have h := (GlorotUniform_shape_cases primsProbe 0).2.1 [3, 5, 7]
      (by norm_num) (by norm_num)
    simpa using h
  · have h := (GlorotUniform_shape_cases primsProbe 0).2.2 [5, 5, 128, 256]
      (by norm_num)
    norm_num [List.getD] at h
    convert h using 2

end DCGAN
